import Mathlib

/-!
Verification development for the flask-pw model layer
(`flask_pw/models.py`): a shallow embedding of the `Choices` helper,
the `Signal` publish/subscribe primitive, and the `Model` class's
save/delete lifecycle hooks, `get_or_none`, raw-query routing and
round-robin read-replica selection, together with theorems about them.
-/

/-- Python exception values as they occur in this module: `ValueError`
carrying a message (raised by `Signal.connect` and `Signal.disconnect`),
the host ORM's `DoesNotExist`, and any other exception kind carrying a
message. -/
inductive PyErr : Type where
  | valueError (msg : String)
  | doesNotExist
  | other (msg : String)
deriving DecidableEq, Repr

/-- The Python exception class of an error value: both failures of the
signal API are instances of the `ValueError` class. -/
def PyErr.errClass : PyErr → String
  | .valueError _ => "ValueError"
  | .doesNotExist => "DoesNotExist"
  | .other _ => "Exception"

/-- Python values that can sit in a model's primary-key slot: `None`
(no value bound), an integer, or a string.  This is the domain over
which `bool(self.pk)` in `Model.save` is evaluated. -/
inductive PyVal : Type where
  | vNone
  | vInt (n : Int)
  | vStr (s : String)
deriving DecidableEq, Repr

/-- Python truthiness `bool(v)` on the values of `PyVal`: `None` is
falsy, an integer is truthy iff nonzero, a string is truthy iff
non-empty. -/
def pyTruthy : PyVal → Bool
  | .vNone => false
  | .vInt n => n != 0
  | .vStr s => s != ""

/-! ## Choices (`Choices.__init__`, `__getattr__`, `__iter__`, `__nonzero__`) -/

/-- One argument to the `Choices` constructor: either a bare string or
an explicit `(stored_value, display_label)` pair. -/
inductive ChoiceArg : Type where
  | str (s : String)
  | pair (v : String) (l : String)
deriving DecidableEq, Repr

/-- The body of the constructor loop: a bare string `s` becomes the
pair `(s, s)`; a pair is kept as-is. -/
def normalizeChoice : ChoiceArg → String × String
  | .str s => (s, s)
  | .pair v l => (v, l)

/-- Insertion into a Python dict modelled as an association list keyed
by the display label: an existing key is updated in place, a new key is
appended (insertion order). -/
def dictInsert : List (String × String) → String → String → List (String × String)
  | [], k, v => [(k, v)]
  | (k2, v2) :: rest, k, v =>
    if k2 = k then (k, v) :: rest else (k2, v2) :: dictInsert rest k v

/-- Lookup in a Python dict modelled as an association list: the value
at the first (and, by the `dictInsert` invariant, only) entry with the
given key, or `none` when the key is absent. -/
def dictGet : List (String × String) → String → Option String
  | [], _ => none
  | (k2, v2) :: rest, k => if k = k2 then some v2 else dictGet rest k

/-- The state built by `Choices.__init__`: the ordered pair list
`_choices` and the label-to-value dict `_reversed`. -/
structure Choices : Type where
  choicesList : List (String × String)
  reversedMap : List (String × String)
deriving DecidableEq, Repr

/-- One iteration of the `Choices.__init__` loop: normalize the
argument, append it to `_choices`, and write
`_reversed[str(choice[1])] = choice[0]`. -/
def Choices.addChoice (c : Choices) (arg : ChoiceArg) : Choices :=
  let choice := normalizeChoice arg
  { choicesList := c.choicesList ++ [choice],
    reversedMap := dictInsert c.reversedMap choice.2 choice.1 }

/-- Embedding of `Choices.__init__`: run the loop over all provided
arguments, starting from the empty list and empty dict. -/
def Choices.init (args : List ChoiceArg) : Choices :=
  args.foldl Choices.addChoice { choicesList := [], reversedMap := [] }

/-- Embedding of `Choices.__getattr__`: `self._reversed.get(name, None)`,
a total lookup returning the absent default for an unknown key. -/
def Choices.getattr (c : Choices) (name : String) : Option String :=
  dictGet c.reversedMap name

/-- Embedding of `Choices.__nonzero__`: always `True`. -/
def Choices.nonzero (_ : Choices) : Bool :=
  true

/-! ## Signal (`connect`, `disconnect`, `send`) -/

/-- Embedding of `Signal.connect`: a non-callable receiver raises
`ValueError('Invalid receiver: %s' % receiver)`; otherwise the receiver
is appended to the receiver list.  `callable` and `reprR` supply
Python's callability test and `%s` rendering for the receiver type. -/
def Signal.connect {R : Type} (callable : R → Bool) (reprR : R → String)
    (receivers : List R) (receiver : R) : Except PyErr (List R) :=
  if callable receiver then .ok (receivers ++ [receiver])
  else .error (.valueError ("Invalid receiver: " ++ reprR receiver))

/-- Python `list.remove`: delete the first occurrence of an element,
returning `none` when the element is absent (the `ValueError` case). -/
def listRemove {R : Type} [DecidableEq R] : List R → R → Option (List R)
  | [], _ => none
  | x :: xs, r => if x = r then some xs else (listRemove xs r).map (fun t => x :: t)

/-- Embedding of `Signal.disconnect`: `self.receivers.remove(receiver)`,
re-raising the resulting `ValueError` as
`ValueError('Unknown receiver: %s' % receiver)`. -/
def Signal.disconnect {R : Type} [DecidableEq R] (reprR : R → String)
    (receivers : List R) (receiver : R) : Except PyErr (List R) :=
  match listRemove receivers receiver with
  | some rest => .ok rest
  | none => .error (.valueError ("Unknown receiver: " ++ reprR receiver))

/-- Embedding of `Signal.send`: run the loop
`for receiver in self.receivers: receiver(instance, *args, **kwargs)`
where `exec` gives each receiver's behaviour on the bundled call
arguments `a` (the instance plus all extra arguments).  The result
records the calls actually made, in order, together with the exception
that aborted the loop, if any. -/
def Signal.sendTrace {R A E : Type} (exec : R → A → Except E Unit)
    (receivers : List R) (a : A) : List (R × A) × Option E :=
  match receivers with
  | [] => ([], none)
  | r :: rest =>
    match exec r a with
    | .error e => ([(r, a)], some e)
    | .ok _ =>
      let t := Signal.sendTrace exec rest a
      ((r, a) :: t.1, t.2)

/-! ## Model lifecycle (`Model.save`, `Model.delete_instance`) -/

/-- Observable steps of a save or delete call: the `pre_save.send` /
`post_save.send` firings with their `created` flag, the delegation to
the base ORM, and likewise for delete. -/
inductive LifeEvent : Type where
  | preSaveSend (created : Bool)
  | baseSaveCall
  | postSaveSend (created : Bool)
  | preDeleteSend
  | baseDeleteCall
  | postDeleteSend
deriving DecidableEq, Repr

/-- The `created` flag of `Model.save`:
`created = force_insert or not bool(self.pk)`. -/
def createdFlag (forceInsert : Bool) (pk : PyVal) : Bool :=
  forceInsert || !(pyTruthy pk)

/-- Embedding of `Model.save`: compute `created`, fire
`pre_save.send(self, created=created)`, delegate to the base ORM save,
fire `post_save.send(self, created=created)`.  The three sub-calls are
given by their outcomes (`preSend` and `postSend` receive the `created`
flag); the result is the event trace together with the propagated
exception, if any — each failing step aborts the remaining steps. -/
def Model.save {E : Type} (preSend : Bool → Except E Unit) (baseSave : Except E Unit)
    (postSend : Bool → Except E Unit) (forceInsert : Bool) (pk : PyVal) :
    List LifeEvent × Option E :=
  let created := createdFlag forceInsert pk
  match preSend created with
  | .error e => ([.preSaveSend created], some e)
  | .ok _ =>
    match baseSave with
    | .error e => ([.preSaveSend created, .baseSaveCall], some e)
    | .ok _ =>
      match postSend created with
      | .error e => ([.preSaveSend created, .baseSaveCall, .postSaveSend created], some e)
      | .ok _ => ([.preSaveSend created, .baseSaveCall, .postSaveSend created], none)

/-- Embedding of `Model.delete_instance`: fire `pre_delete.send(self)`,
delegate to the base ORM delete, fire `post_delete.send(self)`, with
the same fail-fast propagation as `Model.save`. -/
def Model.deleteInstance {E : Type} (preSend : Except E Unit) (baseDelete : Except E Unit)
    (postSend : Except E Unit) : List LifeEvent × Option E :=
  match preSend with
  | .error e => ([.preDeleteSend], some e)
  | .ok _ =>
    match baseDelete with
    | .error e => ([.preDeleteSend, .baseDeleteCall], some e)
    | .ok _ =>
      match postSend with
      | .error e => ([.preDeleteSend, .baseDeleteCall, .postDeleteSend], some e)
      | .ok _ => ([.preDeleteSend, .baseDeleteCall, .postDeleteSend], none)

/-! ## get_or_none (`Model.get_or_none`) -/

/-- Embedding of `Model.get_or_none`: call `cls.get(...)` (whose outcome
is `getResult`), catch exactly `cls.DoesNotExist` and turn it into the
absent value; every other exception propagates unchanged. -/
def Model.getOrNone {Row : Type} (getResult : Except PyErr Row) : Except PyErr (Option Row) :=
  match getResult with
  | .ok row => .ok (some row)
  | .error .doesNotExist => .ok none
  | .error e => .error e

/-! ## Read-replica selection (`Model._get_read_database`, `Model.raw`) -/

/-- Embedding of `Model._get_read_database`.  The class state is the
optional `_read_slave_idx` attribute (`none` before first use, read via
`getattr(cls, '_read_slave_idx', -1)`).  With no replicas configured
the primary `database` is returned and the state is untouched;
otherwise the cursor advances by one modulo the replica count and the
replica at the new cursor is returned, together with the stored new
cursor.  The index is always in `[0, length)` there, so the `getD`
fallback is never taken. -/
def Model.getReadDatabase {DB : Type} (readSlaves : List DB) (database : DB)
    (readSlaveIdx : Option Int) : DB × Option Int :=
  if readSlaves.isEmpty then (database, readSlaveIdx)
  else
    let currentIdx := readSlaveIdx.getD (-1)
    let newIdx := (currentIdx + 1) % (readSlaves.length : Int)
    (readSlaves.getD newIdx.toNat database, some newIdx)

/-- The class cursor after `k` consecutive read dispatches, starting
from the absent attribute. -/
def Model.stateAfter {DB : Type} (readSlaves : List DB) (database : DB) :
    Nat → Option Int
  | 0 => none
  | k + 1 => (Model.getReadDatabase readSlaves database (Model.stateAfter readSlaves database k)).2

/-- The databases returned by `k` consecutive read dispatches starting
from cursor state `st`. -/
def Model.readSequence {DB : Type} (readSlaves : List DB) (database : DB) :
    Nat → Option Int → List DB
  | 0, _ => []
  | k + 1, st =>
    let r := Model.getReadDatabase readSlaves database st
    r.1 :: Model.readSequence readSlaves database k r.2

/-- The lexical check `query._sql.lower().startswith('select')`:
lowercase the query text character by character and test whether the
six characters of `select` form a prefix of the result. -/
def lowerStartsWithSelect (sql : String) : Bool :=
  List.isPrefixOf "select".toList (sql.toList.map Char.toLower)

/-- Embedding of `Model.raw`: the query is built against the primary
`database`; if `query._sql.lower().startswith('select')` the query's
database is rebound to the `_get_read_database` result.  The result is
the query's final database together with the (possibly advanced)
cursor state. -/
def Model.raw {DB : Type} (sql : String) (readSlaves : List DB) (database : DB)
    (readSlaveIdx : Option Int) : DB × Option Int :=
  if lowerStartsWithSelect sql then
    Model.getReadDatabase readSlaves database readSlaveIdx
  else (database, readSlaveIdx)

/-! ## Helper lemmas on replica selection -/

lemma Model.getReadDatabase_of_ne_nil {DB : Type} (readSlaves : List DB) (database : DB)
    (h : readSlaves ≠ []) (st : Option Int) :
    Model.getReadDatabase readSlaves database st
      = (readSlaves.getD ((st.getD (-1) + 1) % (readSlaves.length : Int)).toNat database,
         some ((st.getD (-1) + 1) % (readSlaves.length : Int))) := by
  simp [Model.getReadDatabase, h]

lemma Model.stateAfter_succ {DB : Type} (readSlaves : List DB) (database : DB)
    (h : readSlaves ≠ []) (k : Nat) :
    Model.stateAfter readSlaves database (k + 1)
      = some ((k % readSlaves.length : Nat) : Int) := by
  induction k with
  | zero =>
    simp [Model.stateAfter, Model.getReadDatabase, h]
  | succ k ih =>
    rw [Model.stateAfter, ih, Model.getReadDatabase_of_ne_nil readSlaves database h]
    simp only [Option.getD_some]
    congr 1
    push_cast
    conv_lhs => rw [Int.add_emod]
    conv_rhs => rw [Int.add_emod]
    rw [Int.emod_emod_of_dvd _ (dvd_refl _)]

lemma Model.getReadDatabase_stateAfter {DB : Type} (readSlaves : List DB) (database : DB)
    (h : readSlaves ≠ []) (k : Nat) :
    Model.getReadDatabase readSlaves database (Model.stateAfter readSlaves database k)
      = (readSlaves.getD (k % readSlaves.length) database,
         some ((k % readSlaves.length : Nat) : Int)) := by
  have hidx : ∀ k : Nat,
      ((k : Int) % (readSlaves.length : Int)) = ((k % readSlaves.length : Nat) : Int) := by
    intro k
    exact_mod_cast (Int.ofNat_emod k readSlaves.length).symm
  cases k with
  | zero =>
    rw [Model.stateAfter, Model.getReadDatabase_of_ne_nil readSlaves database h]
    simp
  | succ k =>
    rw [Model.stateAfter_succ readSlaves database h k,
        Model.getReadDatabase_of_ne_nil readSlaves database h]
    simp only [Option.getD_some]
    have harith : (((k % readSlaves.length : Nat) : Int) + 1) % (readSlaves.length : Int)
        = (((k + 1) % readSlaves.length : Nat) : Int) := by
      rw [← hidx k, ← hidx (k + 1)]
      push_cast
      conv_lhs => rw [Int.add_emod]
      conv_rhs => rw [Int.add_emod]
      rw [Int.emod_emod_of_dvd _ (dvd_refl _)]
    rw [harith, Int.toNat_natCast]

/-- C1.  Replica selection is deterministic round robin: with no
replicas configured every read dispatch returns the primary database
with the cursor untouched; with a non-empty replica list the cursor
defaults to `-1` before first use, and the `k`-th dispatch (counting
from zero, starting from the absent cursor) advances the cursor to
`k % n` and returns the replica at that position; with replicas
`[A, B, C]` four consecutive dispatches return `A, B, C, A`. -/
theorem c1_read_replica_round_robin {DB : Type} (readSlaves : List DB) (database : DB)
    (h : readSlaves ≠ []) :
    (∀ st, Model.getReadDatabase ([] : List DB) database st = (database, st))
    ∧ Model.getReadDatabase readSlaves database none
        = Model.getReadDatabase readSlaves database (some (-1))
    ∧ (∀ k : Nat,
        Model.getReadDatabase readSlaves database (Model.stateAfter readSlaves database k)
          = (readSlaves.getD (k % readSlaves.length) database,
             some ((k % readSlaves.length : Nat) : Int)))
    ∧ Model.readSequence ["A", "B", "C"] "Primary" 4 none = ["A", "B", "C", "A"] := by
  refine ⟨fun st => rfl, ?_, Model.getReadDatabase_stateAfter readSlaves database h, by decide⟩
  rw [Model.getReadDatabase_of_ne_nil readSlaves database h,
      Model.getReadDatabase_of_ne_nil readSlaves database h]
  simp

/-- C1 witness: with two replicas, the fifth dispatch (index 4) returns
the first replica again and stores cursor 0. -/
theorem c1_read_replica_round_robin_w :
    Model.getReadDatabase ["X", "Y"] "Primary" (Model.stateAfter ["X", "Y"] "Primary" 4)
      = ("X", some 0) := by
  have h := (c1_read_replica_round_robin ["X", "Y"] "Primary" (by decide)).2.2.1 4
  simpa using h

/-- C2.  A raw query is rebound to the replica-selection result exactly
when its SQL text, lowercased, starts with the six letters of
`select` — a purely lexical prefix check; any other raw query keeps the
primary database and leaves the cursor untouched.  Concretely, a
`SELECT` (any case, even a non-token prefix such as `selection`) goes
to the replica, an `INSERT` stays on the primary. -/
theorem c2_raw_select_routing {DB : Type} (sql : String) (readSlaves : List DB)
    (database : DB) (st : Option Int) :
    (lowerStartsWithSelect sql = true →
       Model.raw sql readSlaves database st = Model.getReadDatabase readSlaves database st)
    ∧ (lowerStartsWithSelect sql = false →
       Model.raw sql readSlaves database st = (database, st))
    ∧ Model.raw "SELECT * FROM users WHERE id = 1" ["A"] "Primary" none = ("A", some 0)
    ∧ Model.raw "SeLeCt 1" ["A"] "Primary" none = ("A", some 0)
    ∧ Model.raw "selection_counter" ["A"] "Primary" none = ("A", some 0)
    ∧ Model.raw "INSERT INTO users VALUES (1)" ["A"] "Primary" none = ("Primary", none) := by
  refine ⟨fun hsel => ?_, fun hsel => ?_, by decide, by decide, by decide, by decide⟩
  · simp [Model.raw, hsel]
  · simp [Model.raw, hsel]

/-- C2 witness: a lowercase select prefix satisfies the lexical check
and is routed through replica selection. -/
theorem c2_raw_select_routing_w :
    Model.raw "select name FROM t" ["A", "B"] "Primary" none
      = Model.getReadDatabase ["A", "B"] "Primary" none := by
  exact (c2_raw_select_routing "select name FROM t" ["A", "B"] "Primary" none).1 (by decide)

/-- C7.  `get_or_none` returns the matching row when the underlying
`get` succeeds, converts the host ORM's `DoesNotExist` to the absent
value instead of raising, and lets every other exception kind
propagate unchanged. -/
theorem c7_get_or_none (Row : Type) (row : Row) (e : PyErr) :
    (Model.getOrNone (Except.ok row : Except PyErr Row) = .ok (some row))
    ∧ (Model.getOrNone (Except.error PyErr.doesNotExist : Except PyErr Row) = .ok none)
    ∧ (e ≠ PyErr.doesNotExist →
        Model.getOrNone (Except.error e : Except PyErr Row) = .error e) := by
  refine ⟨rfl, rfl, fun he => ?_⟩
  cases e with
  | valueError msg => rfl
  | doesNotExist => exact absurd rfl he
  | other msg => rfl

/-- C7 witness: a `ValueError` raised inside `get` propagates through
`get_or_none` unchanged. -/
theorem c7_get_or_none_w :
    Model.getOrNone (Except.error (PyErr.valueError "boom") : Except PyErr Nat)
      = .error (PyErr.valueError "boom") := by
  exact (c7_get_or_none Nat 0 (PyErr.valueError "boom")).2.2 (by decide)

/-! ## Helper lemmas on Choices -/

lemma dictGet_dictInsert (d : List (String × String)) (k v k2 : String) :
    dictGet (dictInsert d k v) k2 = if k2 = k then some v else dictGet d k2 := by
  induction d with
  | nil =>
    by_cases h : k2 = k <;> simp [dictInsert, dictGet, h]
  | cons p rest ih =>
    obtain ⟨a, b⟩ := p
    by_cases h1 : a = k <;> by_cases h2 : k2 = a <;> by_cases h3 : k2 = k <;>
      simp_all [dictInsert, dictGet]

lemma Choices.foldl_choicesList (args : List ChoiceArg) (c0 : Choices) :
    (args.foldl Choices.addChoice c0).choicesList
      = c0.choicesList ++ args.map normalizeChoice := by
  induction args generalizing c0 with
  | nil => simp
  | cons a rest ih => simp [Choices.addChoice, ih]

lemma Choices.init_choicesList (args : List ChoiceArg) :
    (Choices.init args).choicesList = args.map normalizeChoice := by
  simp [Choices.init, Choices.foldl_choicesList]

/-- The value associated with the last normalized pair carrying a given
display label, if any: the reference behaviour of a dict built by
iterating the pairs in order with last write winning. -/
def lastLabelValue (pairs : List (String × String)) (name : String) : Option String :=
  (pairs.reverse.find? (fun p => p.2 == name)).map Prod.fst

lemma Choices.init_append_singleton (l : List ChoiceArg) (a : ChoiceArg) :
    Choices.init (l ++ [a]) = Choices.addChoice (Choices.init l) a := by
  simp [Choices.init, List.foldl_append]

lemma Choices.init_getattr (args : List ChoiceArg) (name : String) :
    (Choices.init args).getattr name = lastLabelValue (args.map normalizeChoice) name := by
  induction args using List.reverseRecOn with
  | nil => rfl
  | append_singleton l a ih =>
    rw [Choices.init_append_singleton]
    by_cases h : (normalizeChoice a).2 = name
    · simp [Choices.getattr, Choices.addChoice, dictGet_dictInsert, lastLabelValue, h]
    · have h2 : ¬ name = (normalizeChoice a).2 := fun hh => h hh.symm
      simp only [Choices.getattr, Choices.addChoice, dictGet_dictInsert, lastLabelValue,
        List.map_append, List.map_cons, List.map_nil, List.reverse_append, List.reverse_cons,
        List.reverse_nil, List.nil_append, List.cons_append, List.find?_cons] at ih ⊢
      rw [if_neg h2]
      have h3 : ((normalizeChoice a).2 == name) = false := by simp [h]
      rw [h3]
      exact ih

/-- C8.  The Choice Registry normalizes each bare string `s` to the
pair `(s, s)` and keeps explicit pairs as-is; iterating it yields
exactly the normalized argument sequence in construction order; and
label lookup returns the stored value of the last normalized pair with
that display label (so the last pair wins when two share a label, and
absent labels yield `none`). -/
theorem c8_choices_construction (args : List ChoiceArg) (s v l name : String) :
    (Choices.init args).choicesList = args.map normalizeChoice
    ∧ normalizeChoice (ChoiceArg.str s) = (s, s)
    ∧ normalizeChoice (ChoiceArg.pair v l) = (v, l)
    ∧ (Choices.init args).getattr name = lastLabelValue (args.map normalizeChoice) name :=
  ⟨Choices.init_choicesList args, rfl, rfl, Choices.init_getattr args name⟩

/-- C9.  Attribute-style lookup of a label that is not among the
registry's display labels returns the absent default (it never
raises — the lookup is total), and every registry, including the empty
one, is truthy. -/
theorem c9_choices_unknown_label (args : List ChoiceArg) (name : String)
    (h : ∀ p ∈ args.map normalizeChoice, p.2 ≠ name) :
    (Choices.init args).getattr name = none
    ∧ (∀ c : Choices, Choices.nonzero c = true)
    ∧ Choices.nonzero (Choices.init []) = true := by
  refine ⟨?_, fun c => rfl, rfl⟩
  rw [Choices.init_getattr]
  have hnone : ∀ p ∈ (args.map normalizeChoice).reverse, ¬((p.2 == name) = true) := by
    intro p hp
    simp only [List.mem_reverse] at hp
    simpa using h p hp
  simp [lastLabelValue, List.find?_eq_none.mpr hnone]

/-- C9 witness: looking up a label absent from a two-entry registry
yields the absent value. -/
theorem c9_choices_unknown_label_w :
    (Choices.init [ChoiceArg.str "on", ChoiceArg.pair "1" "off"]).getattr "missing" = none := by
  exact (c9_choices_unknown_label [ChoiceArg.str "on", ChoiceArg.pair "1" "off"] "missing"
    (by decide)).1

/-! ## Helper lemmas on Signal.send -/

lemma Signal.sendTrace_all_ok {R A E : Type} (exec : R → A → Except E Unit) (a : A) :
    ∀ receivers : List R, (∀ x ∈ receivers, exec x a = .ok ()) →
      Signal.sendTrace exec receivers a = (receivers.map (fun x => (x, a)), none) := by
  intro receivers
  induction receivers with
  | nil => intro _; rfl
  | cons r rest ih =>
    intro h
    have hr : exec r a = .ok () := h r (List.mem_cons_self r rest)
    have hrest := ih (fun x hx => h x (List.mem_cons_of_mem r hx))
    simp [Signal.sendTrace, hr, hrest]

lemma Signal.sendTrace_abort {R A E : Type} (exec : R → A → Except E Unit) (a : A)
    (r : R) (e : E) (hr : exec r a = .error e) :
    ∀ rs1 rs2 : List R, (∀ x ∈ rs1, exec x a = .ok ()) →
      Signal.sendTrace exec (rs1 ++ r :: rs2) a
        = ((rs1 ++ [r]).map (fun x => (x, a)), some e) := by
  intro rs1
  induction rs1 with
  | nil =>
    intro rs2 _
    simp [Signal.sendTrace, hr]
  | cons x xs ih =>
    intro rs2 h
    have hx : exec x a = .ok () := h x (List.mem_cons_self x xs)
    have hrest := ih rs2 (fun y hy => h y (List.mem_cons_of_mem x hy))
    simp [Signal.sendTrace, hx, hrest]

/-- C5.  `Signal.send` invokes each registered receiver exactly once
per registration, in registration order, passing the bundled call
arguments through unchanged (when no receiver raises the call trace is
exactly the receiver list paired with the arguments); and an exception
raised by one receiver propagates immediately, aborting delivery to
all subsequent receivers. -/
theorem c5_signal_send_order (R A E : Type) (exec : R → A → Except E Unit)
    (receivers rs1 rs2 : List R) (r : R) (a : A) (e : E) :
    ((∀ x ∈ receivers, exec x a = .ok ()) →
       Signal.sendTrace exec receivers a = (receivers.map (fun x => (x, a)), none))
    ∧ ((∀ x ∈ rs1, exec x a = .ok ()) → exec r a = .error e →
       Signal.sendTrace exec (rs1 ++ r :: rs2) a
         = ((rs1 ++ [r]).map (fun x => (x, a)), some e)) :=
  ⟨fun h => Signal.sendTrace_all_ok exec a receivers h,
   fun h1 hr => Signal.sendTrace_abort exec a r e hr rs1 rs2 h1⟩

/-- C5 witness: with receivers `[1, 2]` (receiver `3` raising error
`7`), a send invokes `1` then `2` once each with the argument `5`
unchanged; with receivers `[1, 3, 9]` the raise at `3` aborts delivery
so `9` is never invoked. -/
theorem c5_signal_send_order_w :
    Signal.sendTrace
        (fun (x : Nat) (_ : Nat) => if x = 3 then (Except.error 7 : Except Nat Unit) else .ok ())
        [1, 2] 5
      = ([(1, 5), (2, 5)], none)
    ∧ Signal.sendTrace
        (fun (x : Nat) (_ : Nat) => if x = 3 then (Except.error 7 : Except Nat Unit) else .ok ())
        ([1] ++ 3 :: [9]) 5
      = ([(1, 5), (3, 5)], some 7) := by
  constructor
  · refine (c5_signal_send_order Nat Nat Nat _ [1, 2] [1] [9] 3 5 7).1 ?_
    intro x hx
    rcases List.mem_cons.mp hx with rfl | hx2
    · rfl
    · rcases List.mem_cons.mp hx2 with rfl | hx3
      · rfl
      · cases hx3
  · refine (c5_signal_send_order Nat Nat Nat _ [1, 2] [1] [9] 3 5 7).2 ?_ rfl
    intro x hx
    rcases List.mem_cons.mp hx with rfl | hx2
    · rfl
    · cases hx2

/-! ## Theorems on save and delete -/

/-- C3 counterexample.  The claim reads the `created` flag as true
exactly when an insert is forced or the instance has no bound
primary-key value.  With a bound but falsy primary key (`0`) and no
forced insert the code nevertheless fires both signals with
`created=True`: `not bool(self.pk)` tests truthiness, not presence. -/
theorem c3_created_flag_cex :
    Model.save (fun _ => (Except.ok () : Except Unit Unit)) (Except.ok ()) (fun _ => Except.ok ())
        false (PyVal.vInt 0)
      = ([LifeEvent.preSaveSend true, LifeEvent.baseSaveCall, LifeEvent.postSaveSend true], none)
    ∧ PyVal.vInt 0 ≠ PyVal.vNone :=
  ⟨rfl, by decide⟩

/-- C3 (amended).  The `created` flag passed to both save signals is
true exactly when the caller forced an insert or the instance's
primary-key value is falsy (absent, or bound to a falsy value); when no
step raises, `pre_save.send(self, created=created)` fires exactly once
before the base ORM save and `post_save.send(self, created=created)`
exactly once after it. -/
theorem c3_save_signal_firing (E : Type) (preSend : Bool → Except E Unit)
    (baseSave : Except E Unit) (postSend : Bool → Except E Unit)
    (forceInsert : Bool) (pk : PyVal)
    (hpre : preSend (createdFlag forceInsert pk) = Except.ok ())
    (hbase : baseSave = Except.ok ())
    (hpost : postSend (createdFlag forceInsert pk) = Except.ok ()) :
    Model.save preSend baseSave postSend forceInsert pk
      = ([LifeEvent.preSaveSend (createdFlag forceInsert pk), LifeEvent.baseSaveCall,
          LifeEvent.postSaveSend (createdFlag forceInsert pk)], none)
    ∧ (createdFlag forceInsert pk = true ↔ (forceInsert = true ∨ pyTruthy pk = false)) := by
  constructor
  · simp [Model.save, hpre, hbase, hpost]
  · cases forceInsert <;> cases hp : pyTruthy pk <;> simp [createdFlag, hp]

/-- C3 witness: saving an instance with no bound primary key fires both
signals once with `created=True` around the base save. -/
theorem c3_save_signal_firing_w :
    Model.save (fun _ => (Except.ok () : Except Unit Unit)) (Except.ok ()) (fun _ => Except.ok ())
        false PyVal.vNone
      = ([LifeEvent.preSaveSend true, LifeEvent.baseSaveCall, LifeEvent.postSaveSend true],
         none) := by
  have h := c3_save_signal_firing Unit (fun _ => Except.ok ()) (Except.ok ())
    (fun _ => Except.ok ()) false PyVal.vNone rfl rfl rfl
  simpa [createdFlag, pyTruthy] using h.1

/-- C10.  The `created` flag is computed from the truthiness of the
primary-key value, not its presence: for any falsy primary key (such as
the bound values `0` or the empty string), a save without
`force_insert` fires `pre_save` and `post_save` with `created=True`. -/
theorem c10_falsy_pk_created (E : Type) (preSend : Bool → Except E Unit)
    (baseSave : Except E Unit) (postSend : Bool → Except E Unit) (pk : PyVal)
    (hfalsy : pyTruthy pk = false)
    (hpre : preSend true = Except.ok ()) (hbase : baseSave = Except.ok ())
    (hpost : postSend true = Except.ok ()) :
    createdFlag false pk = true
    ∧ Model.save preSend baseSave postSend false pk
        = ([LifeEvent.preSaveSend true, LifeEvent.baseSaveCall, LifeEvent.postSaveSend true],
           none) := by
  have hc : createdFlag false pk = true := by simp [createdFlag, hfalsy]
  refine ⟨hc, ?_⟩
  simp [Model.save, hc, hpre, hbase, hpost]

/-- C10 witness: a primary key bound to the empty string still yields
`created=True` on a non-forced save. -/
theorem c10_falsy_pk_created_w :
    Model.save (fun _ => (Except.ok () : Except Unit Unit)) (Except.ok ()) (fun _ => Except.ok ())
        false (PyVal.vStr "")
      = ([LifeEvent.preSaveSend true, LifeEvent.baseSaveCall, LifeEvent.postSaveSend true],
         none) := by
  exact (c10_falsy_pk_created Unit (fun _ => Except.ok ()) (Except.ok ())
    (fun _ => Except.ok ()) (PyVal.vStr "") (by decide) rfl rfl rfl).2

/-- C4.  Fail-fast semantics of save and delete: a raising `pre_save`
(resp. `pre_delete`) receiver means the base ORM save (resp. delete) is
never attempted; a raising base operation means `post_save`
(resp. `post_delete`) is never fired; in each case the exception
propagates to the caller unchanged. -/
theorem c4_lifecycle_failfast (E : Type) (preSend : Bool → Except E Unit)
    (baseSave : Except E Unit) (postSend : Bool → Except E Unit)
    (forceInsert : Bool) (pk : PyVal)
    (preDel baseDel postDel : Except E Unit) (e : E) :
    (preSend (createdFlag forceInsert pk) = Except.error e →
       Model.save preSend baseSave postSend forceInsert pk
         = ([LifeEvent.preSaveSend (createdFlag forceInsert pk)], some e)
       ∧ LifeEvent.baseSaveCall ∉ (Model.save preSend baseSave postSend forceInsert pk).1)
    ∧ (preSend (createdFlag forceInsert pk) = Except.ok () → baseSave = Except.error e →
       Model.save preSend baseSave postSend forceInsert pk
         = ([LifeEvent.preSaveSend (createdFlag forceInsert pk), LifeEvent.baseSaveCall], some e)
       ∧ ∀ b : Bool,
           LifeEvent.postSaveSend b ∉ (Model.save preSend baseSave postSend forceInsert pk).1)
    ∧ (preDel = Except.error e →
       Model.deleteInstance preDel baseDel postDel = ([LifeEvent.preDeleteSend], some e)
       ∧ LifeEvent.baseDeleteCall ∉ (Model.deleteInstance preDel baseDel postDel).1)
    ∧ (preDel = Except.ok () → baseDel = Except.error e →
       Model.deleteInstance preDel baseDel postDel
         = ([LifeEvent.preDeleteSend, LifeEvent.baseDeleteCall], some e)
       ∧ LifeEvent.postDeleteSend ∉ (Model.deleteInstance preDel baseDel postDel).1) := by
  refine ⟨fun hpre => ?_, fun hpre hbase => ?_, fun hpre => ?_, fun hpre hbase => ?_⟩
  · have heq : Model.save preSend baseSave postSend forceInsert pk
        = ([LifeEvent.preSaveSend (createdFlag forceInsert pk)], some e) := by
      simp [Model.save, hpre]
    exact ⟨heq, by rw [heq]; simp⟩
  · have heq : Model.save preSend baseSave postSend forceInsert pk
        = ([LifeEvent.preSaveSend (createdFlag forceInsert pk), LifeEvent.baseSaveCall],
           some e) := by
      simp [Model.save, hpre, hbase]
    exact ⟨heq, by intro b; rw [heq]; simp⟩
  · have heq : Model.deleteInstance preDel baseDel postDel
        = ([LifeEvent.preDeleteSend], some e) := by
      simp [Model.deleteInstance, hpre]
    exact ⟨heq, by rw [heq]; simp⟩
  · have heq : Model.deleteInstance preDel baseDel postDel
        = ([LifeEvent.preDeleteSend, LifeEvent.baseDeleteCall], some e) := by
      simp [Model.deleteInstance, hpre, hbase]
    exact ⟨heq, by rw [heq]; simp⟩

/-- C4 witness: a raising `pre_save` receiver (error `5`) stops the
save before the base ORM call, and a raising base delete (error `3`)
prevents `post_delete` while the error propagates. -/
theorem c4_lifecycle_failfast_w :
    Model.save (fun _ => (Except.error 5 : Except Nat Unit)) (Except.ok ())
        (fun _ => Except.ok ()) false PyVal.vNone
      = ([LifeEvent.preSaveSend true], some 5)
    ∧ Model.deleteInstance (Except.ok ()) (Except.error 3 : Except Nat Unit) (Except.ok ())
      = ([LifeEvent.preDeleteSend, LifeEvent.baseDeleteCall], some 3) := by
  constructor
  · have h := (c4_lifecycle_failfast Nat (fun _ => Except.error 5) (Except.ok ())
      (fun _ => Except.ok ()) false PyVal.vNone (Except.ok ()) (Except.ok ())
      (Except.ok ()) 5).1 rfl
    simpa [createdFlag, pyTruthy] using h.1
  · have h := (c4_lifecycle_failfast Nat (fun _ => Except.ok ()) (Except.ok ())
      (fun _ => Except.ok ()) false PyVal.vNone (Except.ok ()) (Except.error 3)
      (Except.ok ()) 3).2.2.2 rfl rfl
    exact h.1

/-! ## Helper lemmas on Signal.connect and Signal.disconnect -/

lemma listRemove_of_not_mem {R : Type} [DecidableEq R] (l : List R) (r : R) (h : r ∉ l) :
    listRemove l r = none := by
  induction l with
  | nil => rfl
  | cons x xs ih =>
    have hx : ¬ x = r := by
      intro hh
      subst hh
      exact h (List.mem_cons_self x xs)
    have hxs := ih (fun hm => h (List.mem_cons_of_mem x hm))
    simp [listRemove, hx, hxs]

lemma listRemove_append_cons {R : Type} [DecidableEq R] (l1 l2 : List R) (r : R)
    (h : r ∉ l1) : listRemove (l1 ++ r :: l2) r = some (l1 ++ l2) := by
  induction l1 with
  | nil => simp [listRemove]
  | cons x xs ih =>
    have hx : ¬ x = r := by
      intro hh
      subst hh
      exact h (List.mem_cons_self x xs)
    have hxs := ih (fun hm => h (List.mem_cons_of_mem x hm))
    simp [listRemove, hx, hxs]

lemma invalid_unknown_msg_ne (s t : String) :
    ("Invalid receiver: " ++ s) ≠ ("Unknown receiver: " ++ t) := by
  intro hh
  have hd : ("Invalid receiver: " ++ s).data = ("Unknown receiver: " ++ t).data := by rw [hh]
  have h1 : ("Invalid receiver: " ++ s).data = 'I' :: ("nvalid receiver: " ++ s).data := rfl
  have h2 : ("Unknown receiver: " ++ t).data = 'U' :: ("nknown receiver: " ++ t).data := rfl
  rw [h1, h2] at hd
  injection hd with hch _
  exact absurd hch (by decide)

/-- C6 counterexample.  Both failure modes of the signal API raise the
same exception class: registering the non-callable integer `0` and
disconnecting the never-registered receiver `1` each produce a
`ValueError` (distinguished only by message text), so the two failures
are not distinct error kinds at the exception-class level. -/
theorem c6_error_kinds_cex :
    Signal.connect (fun _ => false) (fun n => toString n) ([] : List Nat) 0
      = Except.error (PyErr.valueError ("Invalid receiver: " ++ toString (0 : Nat)))
    ∧ Signal.disconnect (fun n => toString n) ([] : List Nat) 1
      = Except.error (PyErr.valueError ("Unknown receiver: " ++ toString (1 : Nat)))
    ∧ PyErr.errClass (PyErr.valueError ("Invalid receiver: " ++ toString (0 : Nat)))
        = PyErr.errClass (PyErr.valueError ("Unknown receiver: " ++ toString (1 : Nat))) :=
  ⟨rfl, rfl, rfl⟩

/-- C6 (amended).  `Signal.connect` fails on a non-invocable argument
with a `ValueError` whose message is `Invalid receiver: %s`, and
otherwise appends the receiver; `Signal.disconnect` removes the first
matching occurrence and fails on a never-registered receiver with a
`ValueError` whose message is `Unknown receiver: %s`.  The two failures
share the `ValueError` exception class and are distinguishable by the
caller only through their message texts, which always differ. -/
theorem c6_connect_disconnect (R : Type) [DecidableEq R]
    (callable : R → Bool) (reprR : R → String) (receivers l1 l2 : List R) (r : R) :
    (callable r = false →
       Signal.connect callable reprR receivers r
         = Except.error (PyErr.valueError ("Invalid receiver: " ++ reprR r)))
    ∧ (callable r = true →
       Signal.connect callable reprR receivers r = Except.ok (receivers ++ [r]))
    ∧ (r ∉ receivers →
       Signal.disconnect reprR receivers r
         = Except.error (PyErr.valueError ("Unknown receiver: " ++ reprR r)))
    ∧ (r ∉ l1 → Signal.disconnect reprR (l1 ++ r :: l2) r = Except.ok (l1 ++ l2))
    ∧ (∀ s t : String,
        PyErr.valueError ("Invalid receiver: " ++ s)
          ≠ PyErr.valueError ("Unknown receiver: " ++ t))
    ∧ PyErr.errClass (PyErr.valueError ("Invalid receiver: " ++ reprR r)) = "ValueError"
    ∧ PyErr.errClass (PyErr.valueError ("Unknown receiver: " ++ reprR r)) = "ValueError" := by
  refine ⟨fun hc => ?_, fun hc => ?_, fun hm => ?_, fun hm => ?_, fun s t hh => ?_, rfl, rfl⟩
  · simp [Signal.connect, hc]
  · simp [Signal.connect, hc]
  · simp [Signal.disconnect, listRemove_of_not_mem receivers r hm]
  · simp [Signal.disconnect, listRemove_append_cons l1 l2 r hm]
  · injection hh with hmsg
    exact invalid_unknown_msg_ne s t hmsg

/-- C6 witness: concrete connect and disconnect calls over integer
receivers, exercising the failing and the successful branch of each. -/
theorem c6_connect_disconnect_w :
    Signal.connect (fun n => decide (n ≠ 0)) (fun n => toString n) ([] : List Nat) 0
      = Except.error (PyErr.valueError ("Invalid receiver: " ++ toString (0 : Nat)))
    ∧ Signal.connect (fun n => decide (n ≠ 0)) (fun n => toString n) ([] : List Nat) 2
      = Except.ok [2]
    ∧ Signal.disconnect (fun n => toString n) [5, 6] 7
      = Except.error (PyErr.valueError ("Unknown receiver: " ++ toString (7 : Nat)))
    ∧ Signal.disconnect (fun n => toString n) ([5] ++ 6 :: [7]) 6 = Except.ok ([5] ++ [7]) := by
  refine ⟨?_, ?_, ?_, ?_⟩
  · exact (c6_connect_disconnect Nat (fun n => decide (n ≠ 0)) (fun n => toString n)
      [] [] [] 0).1 (by decide)
  · exact (c6_connect_disconnect Nat (fun n => decide (n ≠ 0)) (fun n => toString n)
      [] [] [] 2).2.1 (by decide)
  · exact (c6_connect_disconnect Nat (fun n => decide (n ≠ 0)) (fun n => toString n)
      [5, 6] [] [] 7).2.2.1 (by decide)
  · exact (c6_connect_disconnect Nat (fun n => decide (n ≠ 0)) (fun n => toString n)
      [] [5] [7] 6).2.2.2.1 (by decide)
